import Mathlib

/-!
Verification development for the LoginID web SDK passkey module
(`Passkeys` class: createPasskey, authenticateWithPasskey,
authenticateWithPasskeyAutofill, requestOtp, confirmTransaction,
invokePasskeyApi).

The flows are embedded shallowly: every external dependency (the generated
REST client, the browser credential API, the cookie/local-storage stores,
the JWT parsing helper) is a field of an `Env` record, and each SDK method
becomes a pure function from an `Env` and its arguments to a pair of
  - the outcome (`Except Thrown α`, where `Thrown` models a JS thrown value),
  - a list of `Event`s recording, in order, every outward-visible call and
    every persistent client-side write the method performs.
-/

namespace LoginIDModel

/-- A value thrown by JS code; `isErrorInstance` models `x instanceof Error`. -/
structure Thrown where
  message : String
  isErrorInstance : Bool
deriving DecidableEq, Repr

/-- Modelled from the spec: NO_LOGIN_OPTIONS_ERROR comes from
`@loginid/core/webauthn` (not under src); it is an Error value thrown when
the auth-init action is none of the known values. -/
def NO_LOGIN_OPTIONS_ERROR : Thrown :=
  { message := "no login options", isErrorInstance := true }

/-- Options bag passed to the SDK methods.  The TS source spreads several
optional-field option types (CreatePasskeyOptions,
AuthenticateWithPasskeysOptions, RequestOtpOptions,
ConfirmTransactionOptions); all their fields are collected here, with the
empty string / `false` standing for an absent (falsy) field.  Callback
functions are modelled by presence flags; their invocation is recorded as an
`Event`. -/
structure PasskeysOptions where
  usernameType : String
  displayName : String
  authzToken : String
  autoFill : Bool
  crossPlatform : Bool
  passkeyName : String
  hasOnFallback : Bool
  hasOnSuccess : Bool
  nonce : String
  txType : String
deriving DecidableEq, Repr

/-- The all-absent options bag (`{}` in the TS source). -/
def emptyOptions : PasskeysOptions :=
  { usernameType := "", displayName := "", authzToken := "", autoFill := false
    crossPlatform := false, passkeyName := "", hasOnFallback := false
    hasOnSuccess := false, nonce := "", txType := "" }

/-- Result envelope returned by the passkey flows. -/
structure AuthResult where
  token : String
  userId : String
  success : Bool
  isFallback : Bool
deriving DecidableEq, Repr

/-- Response body of regRegComplete / authAuthComplete, and the `JWT` model
(userId, jwtAccess); `deviceId` is the extra field the complete responses
carry ("" when absent). -/
structure JWTResponse where
  userId : String
  jwtAccess : String
  deviceId : String
deriving DecidableEq, Repr

/-- Modelled from the spec: `toAuthResult` from ../lib/defaults (not under
src) maps a JWT-bearing response to the result envelope "(token, user id,
success flag, fallback flag)". -/
def toAuthResult (r : JWTResponse) (success fallback : Bool) : AuthResult :=
  { token := r.jwtAccess, userId := r.userId, success := success
    isFallback := fallback }

/-- Response body of authAuthInit (the `AuthInit` model of the API). -/
structure AuthInit where
  action : String
  crossAuthMethods : List String
  fallbackMethods : List String
  assertionOptions : String
  session : String
deriving DecidableEq, Repr

/-- The fallback information handed to an onFallback callback. -/
structure FallbackOptions where
  crossAuthMethods : List String
  fallbackMethods : List String
deriving DecidableEq, Repr

/-- Modelled from the spec: `mergeFallbackOptions` from ../lib/utils (not
under src) merges the cross-auth and fallback methods of the auth-init
response into the options handed to the onFallback callback. -/
def mergeFallbackOptions (r : AuthInit) : FallbackOptions :=
  { crossAuthMethods := r.crossAuthMethods, fallbackMethods := r.fallbackMethods }

/-- Request body of authAuthInit as built by authenticateWithPasskey. -/
structure AuthInitRequestBody where
  appId : String
  deviceInfo : String
  username : String
  usernameType : String
  trustItems : Option String
deriving DecidableEq, Repr

/-- Request body of regRegInit as built by createPasskey. -/
structure RegInitRequestBody where
  appId : String
  deviceInfo : String
  username : String
  usernameType : String
  displayName : String
  securityKey : Bool
  trustItems : Option String
deriving DecidableEq, Repr

/-- Response body of regRegInit (session plus opaque challenge data). -/
structure RegInitResponse where
  session : String
  challenge : String
deriving DecidableEq, Repr

/-- Request body of regRegComplete, produced by the browser credential API
(`createNavigatorCredential`); `payload` stands for the opaque attestation
fields, `passkeyName` "" when absent. -/
structure RegCompleteRequestBody where
  passkeyName : String
  payload : String
deriving DecidableEq, Repr

/-- One WebAuthn assertion as returned by the browser credential API. -/
structure AssertionResult where
  authenticatorData : String
  clientDataJSON : String
  credentialId : String
  signature : String
deriving DecidableEq, Repr

/-- Value returned by `getNavigatorCredential`: it is used whole as the
authAuthComplete request body, and its `assertionResult` part is used by the
transaction flow. -/
structure NavGetResult where
  assertionResult : AssertionResult
  payload : String
deriving DecidableEq, Repr

/-- Response of authAuthCodeRequest: an OTP code and its expiry. -/
structure Otp where
  code : String
  expiresAt : String
deriving DecidableEq, Repr

/-- Request body of txTxInit as built by confirmTransaction. -/
structure TxInitRequestBody where
  username : String
  txPayload : String
  nonce : String
  txType : String
deriving DecidableEq, Repr

/-- Response of txTxInit (assertion options plus session). -/
structure TxInitResponse where
  assertionOptions : String
  session : String
deriving DecidableEq, Repr

/-- Request body of txTxComplete as built by confirmTransaction. -/
structure TxCompleteRequestBody where
  authenticatorData : String
  clientData : String
  keyHandle : String
  session : String
  signature : String
deriving DecidableEq, Repr

/-- Response of txTxComplete. -/
structure TxComplete where
  nonce : String
  txToken : String
deriving DecidableEq, Repr

/-- Outward-visible events of a run: REST calls, browser credential calls,
callback invocations, the error report, and the persistent client-side
writes (JWT cookie, device id). -/
inductive Event where
  | trustQuery (username : String)
  | callAuthInit (body : AuthInitRequestBody)
  | callRegInit (body : RegInitRequestBody) (authHeader : Option String)
  | callNavigatorCreate
  | callNavigatorGet
  | callRegComplete (body : RegCompleteRequestBody)
  | callAuthComplete (body : NavGetResult)
  | callTxInit (body : TxInitRequestBody)
  | callTxComplete (body : TxCompleteRequestBody)
  | callAuthCodeRequest (authHeader : String)
  | writeJwtCookie (token : String)
  | writeDeviceId (appId : String) (deviceId : String)
  | onFallbackCalled (username : String) (opts : FallbackOptions)
  | onSuccessCalled (result : AuthResult)
  | reportError (session : String) (e : Thrown)
deriving DecidableEq, Repr

/-- An event is a write to persistent client-side state (cookie / local
storage) exactly when it is the JWT cookie write or the device-id write;
every other event is a call or a callback, not a persistent write. -/
def isPersistentWrite : Event → Bool
  | Event.writeJwtCookie _ => true
  | Event.writeDeviceId _ _ => true
  | _ => false

/-- The environment: results of every external dependency of the Passkeys
class (configuration, stores, JWT parsing, the generated REST client, the
browser credential API).  The flows are quantified over it. -/
structure Env where
  appId : String
  storedDeviceId : String
  deviceInfo : String → String
  getToken : String → String
  parseJwtUsername : String → String
  trust : String → Option String
  authInit : AuthInitRequestBody → AuthInit
  regInit : RegInitRequestBody → Option String → RegInitResponse
  navigatorCreate : RegInitResponse → Except Thrown RegCompleteRequestBody
  regComplete : RegCompleteRequestBody → Except Thrown JWTResponse
  navigatorGet : AuthInit → PasskeysOptions → Except Thrown NavGetResult
  authComplete : NavGetResult → Except Thrown JWTResponse
  authCodeRequest : String → Otp
  txInit : TxInitRequestBody → TxInitResponse
  txComplete : TxCompleteRequestBody → Except Thrown TxComplete
  nonceDefault : String
  txTypeDefault : String

/-- Modelled from the spec: `passkeyOptions` from ../lib/defaults (not under
src) merges the username, the authorization token and the caller options
with defaults ("build a request from options/defaults"), preserving the
caller-provided fields and callbacks. -/
def passkeyOptions (username authzToken : String) (o : PasskeysOptions) :
    PasskeysOptions :=
  { o with
    authzToken := authzToken
    usernameType := if o.usernameType = "" then "email" else o.usernameType
    displayName := if o.displayName = "" then username else o.displayName }

/-- Modelled from the spec: `confirmTransactionOptions` from ../lib/defaults
(not under src) fills in the nonce and transaction type defaults. -/
def confirmTransactionOptions (env : Env) (o : PasskeysOptions) :
    PasskeysOptions :=
  { o with
    nonce := if o.nonce = "" then env.nonceDefault else o.nonce
    txType := if o.txType = "" then env.txTypeDefault else o.txType }

/-- invokePasskeyApi: runs the wrapped computation once; on success its
result and events pass through unchanged; on a throw, an Error instance is
reported to the client-events service with the session, and the very same
thrown value is rethrown. -/
def invokePasskeyApi {α : Type} (session : String)
    (fn : Except Thrown α × List Event) : Except Thrown α × List Event :=
  match fn with
  | (Except.ok v, evs) => (Except.ok v, evs)
  | (Except.error e, evs) =>
      if e.isErrorInstance then
        (Except.error e, evs ++ [Event.reportError session e])
      else
        (Except.error e, evs)

/-- The authorization token used by createPasskey after the username guard:
the session-store token, cleared when its parsed username differs from the
username argument. -/
def regInitAuthz (env : Env) (username authzToken : String)
    (options : PasskeysOptions) : String :=
  let tok := env.getToken (passkeyOptions username authzToken options).authzToken
  if tok ≠ "" then
    if env.parseJwtUsername tok ≠ username then "" else tok
  else tok

/-- The regRegInit request body built by createPasskey. -/
def regInitBody (env : Env) (username authzToken : String)
    (options : PasskeysOptions) : RegInitRequestBody :=
  let opts := passkeyOptions username authzToken options
  { appId := env.appId
    deviceInfo := env.deviceInfo env.storedDeviceId
    username := username
    usernameType := opts.usernameType
    displayName := opts.displayName
    securityKey := options.crossPlatform
    trustItems := env.trust username }

/-- The authorization header attached to the regRegInit call: present only
when the guarded token is non-empty. -/
def regInitAuthHeader (env : Env) (username authzToken : String)
    (options : PasskeysOptions) : Option String :=
  let tok := regInitAuthz env username authzToken options
  if tok ≠ "" then some tok else none

/-- The regRegInit response obtained by createPasskey. -/
def regInitResp (env : Env) (username authzToken : String)
    (options : PasskeysOptions) : RegInitResponse :=
  env.regInit (regInitBody env username authzToken options)
    (regInitAuthHeader env username authzToken options)

/-- The regRegComplete request body after the optional passkey renaming:
the browser credential result, with its passkeyName overwritten when the
caller provided one. -/
def adjustedRegBody (options : PasskeysOptions) (nav0 : RegCompleteRequestBody) :
    RegCompleteRequestBody :=
  if options.passkeyName ≠ "" then
    { nav0 with passkeyName := options.passkeyName } else nav0

/-- Body of the function createPasskey hands to invokePasskeyApi: browser
credential creation, optional passkey naming, regRegComplete, result
mapping, then the JWT cookie and device-id writes. -/
def createRegFn (env : Env) (options : PasskeysOptions)
    (resp : RegInitResponse) (appId deviceId : String) :
    Except Thrown AuthResult × List Event :=
  match env.navigatorCreate resp with
  | Except.error e => (Except.error e, [Event.callNavigatorCreate])
  | Except.ok nav0 =>
      let nav := adjustedRegBody options nav0
      match env.regComplete nav with
      | Except.error e =>
          (Except.error e, [Event.callNavigatorCreate, Event.callRegComplete nav])
      | Except.ok comp =>
          let result := toAuthResult comp true false
          (Except.ok result,
           [Event.callNavigatorCreate, Event.callRegComplete nav,
            Event.writeJwtCookie comp.jwtAccess,
            Event.writeDeviceId appId
              (if deviceId ≠ "" then deviceId else comp.deviceId)])

/-- createPasskey: guard the session token against a username mismatch,
query the trust store, call regRegInit (with the authorization header only
when a matching token remains), then run the registration ceremony under
invokePasskeyApi. -/
def createPasskey (env : Env) (username authzToken : String)
    (options : PasskeysOptions) : Except Thrown AuthResult × List Event :=
  let appId := env.appId
  let deviceId := env.storedDeviceId
  let authHeader := regInitAuthHeader env username authzToken options
  let body := regInitBody env username authzToken options
  let resp := regInitResp env username authzToken options
  let p := invokePasskeyApi resp.session (createRegFn env options resp appId deviceId)
  (p.1, Event.trustQuery username :: Event.callRegInit body authHeader :: p.2)

/-- The authAuthInit request body built by authenticateWithPasskey. -/
def authInitBody (env : Env) (username : String) (options : PasskeysOptions) :
    AuthInitRequestBody :=
  let opts := passkeyOptions username "" options
  { appId := env.appId
    deviceInfo := env.deviceInfo env.storedDeviceId
    username := username
    usernameType := opts.usernameType
    trustItems := env.trust (if options.autoFill then "" else username) }

/-- The authAuthInit response obtained by authenticateWithPasskey. -/
def authInitResp (env : Env) (username : String) (options : PasskeysOptions) :
    AuthInit :=
  env.authInit (authInitBody env username options)

/-- Body of the function the proceed branch of authenticateWithPasskey hands
to invokePasskeyApi: browser credential assertion, authAuthComplete, result
mapping, cookie and device-id writes, then the onSuccess callback. -/
def authProceedFn (env : Env) (resp : AuthInit)
    (options opts : PasskeysOptions) (appId : String) :
    Except Thrown AuthResult × List Event :=
  match env.navigatorGet resp options with
  | Except.error e => (Except.error e, [Event.callNavigatorGet])
  | Except.ok nav =>
      match env.authComplete nav with
      | Except.error e =>
          (Except.error e, [Event.callNavigatorGet, Event.callAuthComplete nav])
      | Except.ok comp =>
          let result := toAuthResult comp true false
          (Except.ok result,
           [Event.callNavigatorGet, Event.callAuthComplete nav,
            Event.writeJwtCookie result.token,
            Event.writeDeviceId appId comp.deviceId]
           ++ (if opts.hasOnSuccess then [Event.onSuccessCalled result] else []))

/-- authenticateWithPasskey: query the trust store, call authAuthInit, then
dispatch on the action field: proceed runs the assertion ceremony under
invokePasskeyApi; crossAuth and fallback run the onFallback callback (when
provided) and return the empty fallback result; any other action throws
NO_LOGIN_OPTIONS_ERROR. -/
def authenticateWithPasskey (env : Env) (username : String)
    (options : PasskeysOptions) : Except Thrown AuthResult × List Event :=
  let appId := env.appId
  let opts := passkeyOptions username "" options
  let trustArg := if options.autoFill then "" else username
  let body := authInitBody env username options
  let resp := authInitResp env username options
  let ev0 : List Event := [Event.trustQuery trustArg, Event.callAuthInit body]
  if resp.action = "proceed" then
    let p := invokePasskeyApi resp.session (authProceedFn env resp options opts appId)
    (p.1, ev0 ++ p.2)
  else if resp.action = "crossAuth" ∨ resp.action = "fallback" then
    let fevs := if opts.hasOnFallback then
        [Event.onFallbackCalled username (mergeFallbackOptions resp)] else []
    (Except.ok (toAuthResult { userId := "", jwtAccess := "", deviceId := "" } false true),
     ev0 ++ fevs)
  else
    (Except.error NO_LOGIN_OPTIONS_ERROR, ev0)

/-- authenticateWithPasskeyAutofill: sets autoFill and delegates to
authenticateWithPasskey with the empty username. -/
def authenticateWithPasskeyAutofill (env : Env) (options : PasskeysOptions) :
    Except Thrown AuthResult × List Event :=
  authenticateWithPasskey env "" { options with autoFill := true }

/-- requestOtp: use the session-store token when present, otherwise
authenticate with a passkey first and use the resulting token; then call
authAuthCodeRequest with that token as authorization and return its
response. -/
def requestOtp (env : Env) (username : String) (options : PasskeysOptions) :
    Except Thrown Otp × List Event :=
  let tok := env.getToken options.authzToken
  if tok = "" then
    match authenticateWithPasskey env username options with
    | (Except.error e, evs) => (Except.error e, evs)
    | (Except.ok r, evs) =>
        (Except.ok (env.authCodeRequest r.token),
         evs ++ [Event.callAuthCodeRequest r.token])
  else
    (Except.ok (env.authCodeRequest tok), [Event.callAuthCodeRequest tok])

/-- The txTxInit request body built by confirmTransaction. -/
def txInitBody (env : Env) (username txPayload : String)
    (options : PasskeysOptions) : TxInitRequestBody :=
  let opts := confirmTransactionOptions env options
  { username := username, txPayload := txPayload
    nonce := opts.nonce, txType := opts.txType }

/-- The AuthInit value confirmTransaction assembles from the txTxInit
response: action proceed, no cross-auth or fallback methods. -/
def txAuthInit (env : Env) (username txPayload : String)
    (options : PasskeysOptions) : AuthInit :=
  let r := env.txInit (txInitBody env username txPayload options)
  { action := "proceed", crossAuthMethods := [], fallbackMethods := []
    assertionOptions := r.assertionOptions, session := r.session }

/-- The txTxComplete request body: the assertion fields of the browser
credential result, plus the unchanged session. -/
def txCompleteBody (a : AuthInit) (nav : NavGetResult) : TxCompleteRequestBody :=
  let ar := nav.assertionResult
  { authenticatorData := ar.authenticatorData
    clientData := ar.clientDataJSON
    keyHandle := ar.credentialId
    session := a.session
    signature := ar.signature }

/-- Body of the function confirmTransaction hands to invokePasskeyApi:
browser credential assertion, then txTxComplete with the assertion fields
and the unchanged session. -/
def txProceedFn (env : Env) (a : AuthInit) :
    Except Thrown TxComplete × List Event :=
  match env.navigatorGet a emptyOptions with
  | Except.error e => (Except.error e, [Event.callNavigatorGet])
  | Except.ok nav =>
      let body := txCompleteBody a nav
      match env.txComplete body with
      | Except.error e =>
          (Except.error e, [Event.callNavigatorGet, Event.callTxComplete body])
      | Except.ok r =>
          (Except.ok r, [Event.callNavigatorGet, Event.callTxComplete body])

/-- confirmTransaction: call txTxInit, wrap the response as a proceed-only
AuthInit, then run the assertion ceremony and txTxComplete under
invokePasskeyApi; nothing is written to persistent state. -/
def confirmTransaction (env : Env) (username txPayload : String)
    (options : PasskeysOptions) : Except Thrown TxComplete × List Event :=
  let body := txInitBody env username txPayload options
  let a := txAuthInit env username txPayload options
  let p := invokePasskeyApi a.session (txProceedFn env a)
  (p.1, Event.callTxInit body :: p.2)

/-- A sample authAuthInit response used by the concrete test environments. -/
def sampleAuthInit (action : String) : AuthInit :=
  { action := action, crossAuthMethods := ["otp"], fallbackMethods := ["mail"]
    assertionOptions := "ao", session := "sess1" }

/-- A concrete environment used to evaluate the flows on closed inputs. -/
def baseEnv : Env :=
  { appId := "app1"
    storedDeviceId := "dev0"
    deviceInfo := fun d => "di-" ++ d
    getToken := fun a => a
    parseJwtUsername := fun _ => "alice"
    trust := fun u => some ("t-" ++ u)
    authInit := fun _ => sampleAuthInit "proceed"
    regInit := fun _ _ => { session := "regsess", challenge := "ch" }
    navigatorCreate := fun _ => Except.ok { passkeyName := "", payload := "navc" }
    regComplete := fun _ =>
      Except.ok { userId := "u1", jwtAccess := "jwtR", deviceId := "devR" }
    navigatorGet := fun _ _ =>
      Except.ok { assertionResult :=
        { authenticatorData := "ad", clientDataJSON := "cd"
          credentialId := "ci", signature := "sg" }, payload := "navg" }
    authComplete := fun _ =>
      Except.ok { userId := "u2", jwtAccess := "jwtA", deviceId := "devA" }
    authCodeRequest := fun _ => { code := "123456", expiresAt := "soon" }
    txInit := fun _ => { assertionOptions := "txao", session := "txsess" }
    txComplete := fun _ => Except.ok { nonce := "n1", txToken := "txjwt" }
    nonceDefault := "nonce-d"
    txTypeDefault := "raw" }

/-- Environment whose auth-init action is none of the known values. -/
def envUnknown : Env := { baseEnv with authInit := fun _ => sampleAuthInit "weird" }

/-- Environment whose auth-init action requests cross-auth. -/
def envCross : Env := { baseEnv with authInit := fun _ => sampleAuthInit "crossAuth" }

/-- Environment whose txTxComplete call throws an Error. -/
def envTxFail : Env :=
  { baseEnv with txComplete := fun _ =>
      Except.error { message := "boom", isErrorInstance := true } }

theorem invokePasskeyApi_fst {α : Type} (s : String)
    (fn : Except Thrown α × List Event) : (invokePasskeyApi s fn).1 = fn.1 := by
  rcases fn with ⟨r, evs⟩
  cases r <;> simp [invokePasskeyApi] <;> split <;> rfl

theorem invokePasskeyApi_ok {α : Type} (s : String) (v : α) (evs : List Event) :
    invokePasskeyApi s (Except.ok v, evs) = (Except.ok v, evs) := rfl

theorem invokePasskeyApi_error {α : Type} (s : String) (e : Thrown)
    (evs : List Event) :
    invokePasskeyApi (α := α) s (Except.error e, evs) =
      (Except.error e,
       evs ++ if e.isErrorInstance then [Event.reportError s e] else []) := by
  simp [invokePasskeyApi]
  split <;> simp_all

theorem mem_invokePasskeyApi {α : Type} {s : String}
    {fn : Except Thrown α × List Event} {x : Event}
    (h : x ∈ (invokePasskeyApi s fn).2) :
    x ∈ fn.2 ∨ ∃ e, x = Event.reportError s e := by
  rcases fn with ⟨r, evs⟩
  cases r with
  | ok v => exact Or.inl h
  | error e =>
      rw [invokePasskeyApi_error] at h
      rcases List.mem_append.mp h with h1 | h1
      · exact Or.inl h1
      · right
        refine ⟨e, ?_⟩
        by_cases he : e.isErrorInstance <;> simp [he] at h1 <;> simp [h1]

theorem filter_invokePasskeyApi {α : Type} (s : String)
    (fn : Except Thrown α × List Event) :
    ((invokePasskeyApi s fn).2.filter isPersistentWrite) =
      fn.2.filter isPersistentWrite := by
  rcases fn with ⟨r, evs⟩
  cases r with
  | ok v => rfl
  | error e =>
      rw [invokePasskeyApi_error]
      by_cases he : e.isErrorInstance <;> simp [he, isPersistentWrite]

theorem mem_authProceedFn {env : Env} {resp : AuthInit}
    {options opts : PasskeysOptions} {appId : String} {x : Event}
    (h : x ∈ (authProceedFn env resp options opts appId).2) :
    x = Event.callNavigatorGet ∨ (∃ b, x = Event.callAuthComplete b) ∨
    (∃ t, x = Event.writeJwtCookie t) ∨ (∃ a d, x = Event.writeDeviceId a d) ∨
    (∃ r, x = Event.onSuccessCalled r) := by
  unfold authProceedFn at h
  rcases hn : env.navigatorGet resp options with e | nav
  · rw [hn] at h
    simp only [List.mem_singleton] at h
    simp [h]
  · rw [hn] at h
    simp only at h
    rcases hc : env.authComplete nav with e | comp
    · rw [hc] at h
      simp at h
      rcases h with h | h <;> simp [h]
    · rw [hc] at h
      by_cases hs : opts.hasOnSuccess = true
      · simp [hs] at h
        rcases h with h | h | h | h | h <;> simp [h]
      · simp [hs] at h
        rcases h with h | h | h | h <;> simp [h]

theorem mem_createRegFn {env : Env} {options : PasskeysOptions}
    {resp : RegInitResponse} {appId deviceId : String} {x : Event}
    (h : x ∈ (createRegFn env options resp appId deviceId).2) :
    x = Event.callNavigatorCreate ∨ (∃ b, x = Event.callRegComplete b) ∨
    (∃ t, x = Event.writeJwtCookie t) ∨ (∃ a d, x = Event.writeDeviceId a d) := by
  unfold createRegFn at h
  rcases hn : env.navigatorCreate resp with e | nav
  · rw [hn] at h
    simp only [List.mem_singleton] at h
    simp [h]
  · rw [hn] at h
    simp only at h
    rcases hc : env.regComplete (adjustedRegBody options nav) with e | comp
    · rw [hc] at h
      simp at h
      rcases h with h | h <;> simp [h]
    · rw [hc] at h
      simp at h
      rcases h with h | h | h | h <;> simp [h]

theorem filter_authProceedFn (env : Env) (resp : AuthInit)
    (options opts : PasskeysOptions) (appId : String) :
    ((authProceedFn env resp options opts appId).2.filter isPersistentWrite)
      = [] ∨
    ∃ t a d, ((authProceedFn env resp options opts appId).2.filter
      isPersistentWrite) = [Event.writeJwtCookie t, Event.writeDeviceId a d] := by
  unfold authProceedFn
  rcases hn : env.navigatorGet resp options with e | nav
  · left
    simp [hn, isPersistentWrite]
  · rcases hc : env.authComplete nav with e | comp
    · left
      simp [hn, hc, isPersistentWrite]
    · right
      refine ⟨comp.jwtAccess, appId, comp.deviceId, ?_⟩
      by_cases hs : opts.hasOnSuccess = true <;>
        simp [hn, hc, hs, isPersistentWrite, toAuthResult]

theorem filter_createRegFn (env : Env) (options : PasskeysOptions)
    (resp : RegInitResponse) (appId deviceId : String) :
    ((createRegFn env options resp appId deviceId).2.filter isPersistentWrite)
      = [] ∨
    ∃ t a d, ((createRegFn env options resp appId deviceId).2.filter
      isPersistentWrite) = [Event.writeJwtCookie t, Event.writeDeviceId a d] := by
  unfold createRegFn
  rcases hn : env.navigatorCreate resp with e | nav
  · left
    simp [hn, isPersistentWrite]
  · rcases hc : env.regComplete (adjustedRegBody options nav) with e | comp
    · left
      simp [hn, hc, isPersistentWrite]
    · right
      refine ⟨comp.jwtAccess, appId,
        (if deviceId ≠ "" then deviceId else comp.deviceId), ?_⟩
      simp [hn, hc, isPersistentWrite]

theorem filter_txProceedFn (env : Env) (a : AuthInit) :
    ((txProceedFn env a).2.filter isPersistentWrite) = [] := by
  unfold txProceedFn
  rcases hn : env.navigatorGet a emptyOptions with e | nav
  · simp [hn, isPersistentWrite]
  · rcases hc : env.txComplete (txCompleteBody a nav) with e | r <;>
      simp [hn, hc, isPersistentWrite]

theorem auth_proceed_branch (env : Env) (u : String) (o : PasskeysOptions)
    (h : (authInitResp env u o).action = "proceed") :
    authenticateWithPasskey env u o =
      ((invokePasskeyApi (authInitResp env u o).session
          (authProceedFn env (authInitResp env u o) o (passkeyOptions u "" o)
            env.appId)).1,
       [Event.trustQuery (if o.autoFill then "" else u),
        Event.callAuthInit (authInitBody env u o)] ++
       (invokePasskeyApi (authInitResp env u o).session
          (authProceedFn env (authInitResp env u o) o (passkeyOptions u "" o)
            env.appId)).2) := by
  simp only [authenticateWithPasskey]
  rw [if_pos h]

theorem auth_fallback_branch (env : Env) (u : String) (o : PasskeysOptions)
    (h : (authInitResp env u o).action = "crossAuth" ∨
         (authInitResp env u o).action = "fallback") :
    authenticateWithPasskey env u o =
      (Except.ok (toAuthResult { userId := "", jwtAccess := "", deviceId := "" }
          false true),
       [Event.trustQuery (if o.autoFill then "" else u),
        Event.callAuthInit (authInitBody env u o)] ++
       (if (passkeyOptions u "" o).hasOnFallback then
          [Event.onFallbackCalled u (mergeFallbackOptions (authInitResp env u o))]
        else [])) := by
  have hp : (authInitResp env u o).action ≠ "proceed" := by
    rcases h with h | h <;> rw [h] <;> decide
  simp only [authenticateWithPasskey]
  rw [if_neg hp, if_pos h]

theorem auth_default_branch (env : Env) (u : String) (o : PasskeysOptions)
    (h1 : (authInitResp env u o).action ≠ "proceed")
    (h2 : (authInitResp env u o).action ≠ "crossAuth")
    (h3 : (authInitResp env u o).action ≠ "fallback") :
    authenticateWithPasskey env u o =
      (Except.error NO_LOGIN_OPTIONS_ERROR,
       [Event.trustQuery (if o.autoFill then "" else u),
        Event.callAuthInit (authInitBody env u o)]) := by
  simp only [authenticateWithPasskey]
  rw [if_neg h1, if_neg (not_or.mpr ⟨h2, h3⟩)]

theorem mem_txProceedFn {env : Env} {a : AuthInit} {x : Event}
    (h : x ∈ (txProceedFn env a).2) :
    x = Event.callNavigatorGet ∨
    (∃ b, x = Event.callTxComplete b ∧ b.session = a.session) := by
  unfold txProceedFn at h
  rcases hn : env.navigatorGet a emptyOptions with e | nav
  · rw [hn] at h
    simp only [List.mem_singleton] at h
    simp [h]
  · rw [hn] at h
    simp only at h
    rcases hc : env.txComplete (txCompleteBody a nav) with e | r <;>
      rw [hc] at h <;> simp at h <;> rcases h with h | h <;>
        simp [h, txCompleteBody]

theorem mem_authenticateWithPasskey {env : Env} {u : String}
    {o : PasskeysOptions} {x : Event}
    (h : x ∈ (authenticateWithPasskey env u o).2) :
    x = Event.trustQuery (if o.autoFill then "" else u) ∨
    x = Event.callAuthInit (authInitBody env u o) ∨
    x = Event.callNavigatorGet ∨ (∃ b, x = Event.callAuthComplete b) ∨
    (∃ t, x = Event.writeJwtCookie t) ∨ (∃ a d, x = Event.writeDeviceId a d) ∨
    (∃ r, x = Event.onSuccessCalled r) ∨
    (∃ e, x = Event.reportError (authInitResp env u o).session e) ∨
    (∃ fo, x = Event.onFallbackCalled u fo) := by
  by_cases hp : (authInitResp env u o).action = "proceed"
  · rw [auth_proceed_branch env u o hp] at h
    simp at h
    rcases h with h | h | h
    · simp [h]
    · simp [h]
    · rcases mem_invokePasskeyApi h with h | ⟨e, he⟩
      · rcases mem_authProceedFn h with h | h | h | h | h <;> simp [h]
      · simp [he]
  · by_cases hf : (authInitResp env u o).action = "crossAuth" ∨
        (authInitResp env u o).action = "fallback"
    · rw [auth_fallback_branch env u o hf] at h
      by_cases hfb : (passkeyOptions u "" o).hasOnFallback = true
      · simp [hfb] at h
        rcases h with h | h | h <;> simp [h]
      · simp [hfb] at h
        rcases h with h | h <;> simp [h]
    · rw [auth_default_branch env u o hp
        (not_or.mp hf).1 (not_or.mp hf).2] at h
      simp at h
      rcases h with h | h <;> simp [h]

theorem mem_createPasskey {env : Env} {u tz : String} {o : PasskeysOptions}
    {x : Event} (h : x ∈ (createPasskey env u tz o).2) :
    x = Event.trustQuery u ∨
    x = Event.callRegInit (regInitBody env u tz o) (regInitAuthHeader env u tz o) ∨
    x = Event.callNavigatorCreate ∨ (∃ b, x = Event.callRegComplete b) ∨
    (∃ t, x = Event.writeJwtCookie t) ∨ (∃ a d, x = Event.writeDeviceId a d) ∨
    (∃ e, x = Event.reportError (regInitResp env u tz o).session e) := by
  simp only [createPasskey] at h
  simp at h
  rcases h with h | h | h
  · simp [h]
  · simp [h]
  · rcases mem_invokePasskeyApi h with h | ⟨e, he⟩
    · rcases mem_createRegFn h with h | h | h | h <;> simp [h]
    · simp [he]

theorem mem_confirmTransaction {env : Env} {u p : String}
    {o : PasskeysOptions} {x : Event}
    (h : x ∈ (confirmTransaction env u p o).2) :
    x = Event.callTxInit (txInitBody env u p o) ∨
    x = Event.callNavigatorGet ∨
    (∃ b, x = Event.callTxComplete b ∧
      b.session = (env.txInit (txInitBody env u p o)).session) ∨
    (∃ e, x = Event.reportError (env.txInit (txInitBody env u p o)).session e) := by
  simp only [confirmTransaction] at h
  simp at h
  rcases h with h | h
  · simp [h]
  · have hsess : (txAuthInit env u p o).session =
        (env.txInit (txInitBody env u p o)).session := rfl
    rcases mem_invokePasskeyApi h with h | ⟨e, he⟩
    · rcases mem_txProceedFn h with h | ⟨b, hb, hbs⟩
      · simp [h]
      · refine Or.inr (Or.inr (Or.inl ⟨b, hb, ?_⟩))
        rw [hbs, hsess]
    · rw [hsess] at he
      simp [he]

theorem filter_authenticateWithPasskey (env : Env) (u : String)
    (o : PasskeysOptions) :
    ((authenticateWithPasskey env u o).2.filter isPersistentWrite) = [] ∨
    ∃ t a d, ((authenticateWithPasskey env u o).2.filter isPersistentWrite) =
      [Event.writeJwtCookie t, Event.writeDeviceId a d] := by
  by_cases hp : (authInitResp env u o).action = "proceed"
  · rw [auth_proceed_branch env u o hp]
    have hfi := filter_invokePasskeyApi (authInitResp env u o).session
      (authProceedFn env (authInitResp env u o) o (passkeyOptions u "" o) env.appId)
    rcases filter_authProceedFn env (authInitResp env u o) o
        (passkeyOptions u "" o) env.appId with hf | ⟨t, a, d, hf⟩
    · left
      simp [List.filter_append, isPersistentWrite, hfi, hf]
    · right
      refine ⟨t, a, d, ?_⟩
      simp [List.filter_append, isPersistentWrite, hfi, hf]
  · by_cases hf : (authInitResp env u o).action = "crossAuth" ∨
        (authInitResp env u o).action = "fallback"
    · left
      rw [auth_fallback_branch env u o hf]
      by_cases hfb : (passkeyOptions u "" o).hasOnFallback = true <;>
        simp [hfb, List.filter_append, isPersistentWrite]
    · left
      rw [auth_default_branch env u o hp (not_or.mp hf).1 (not_or.mp hf).2]
      simp [isPersistentWrite]

theorem filter_createPasskey (env : Env) (u tz : String) (o : PasskeysOptions) :
    ((createPasskey env u tz o).2.filter isPersistentWrite) = [] ∨
    ∃ t a d, ((createPasskey env u tz o).2.filter isPersistentWrite) =
      [Event.writeJwtCookie t, Event.writeDeviceId a d] := by
  simp only [createPasskey]
  have hfi := filter_invokePasskeyApi (regInitResp env u tz o).session
    (createRegFn env o (regInitResp env u tz o) env.appId env.storedDeviceId)
  rcases filter_createRegFn env o (regInitResp env u tz o) env.appId
      env.storedDeviceId with hf | ⟨t, a, d, hf⟩
  · left
    simp [isPersistentWrite, hfi, hf]
  · right
    refine ⟨t, a, d, ?_⟩
    simp [isPersistentWrite, hfi, hf]

theorem filter_confirmTransaction (env : Env) (u p : String)
    (o : PasskeysOptions) :
    ((confirmTransaction env u p o).2.filter isPersistentWrite) = [] := by
  simp only [confirmTransaction]
  have hfi := filter_invokePasskeyApi (txAuthInit env u p o).session
    (txProceedFn env (txAuthInit env u p o))
  simp [isPersistentWrite, hfi, filter_txProceedFn]

theorem regInitAuthHeader_eq (env : Env) (u tz : String) (o : PasskeysOptions) :
    regInitAuthHeader env u tz o =
      (if env.getToken (passkeyOptions u tz o).authzToken ≠ "" ∧
          env.parseJwtUsername (env.getToken (passkeyOptions u tz o).authzToken) = u
       then some (env.getToken (passkeyOptions u tz o).authzToken) else none) := by
  unfold regInitAuthHeader regInitAuthz
  by_cases h1 : env.getToken (passkeyOptions u tz o).authzToken = ""
  · simp [h1]
  · by_cases h2 : env.parseJwtUsername
        (env.getToken (passkeyOptions u tz o).authzToken) = u
    · simp [h1, h2]
    · simp [h1, h2]

theorem authProceedFn_ok (env : Env) (resp : AuthInit)
    (options opts : PasskeysOptions) (appId : String) (nav : NavGetResult)
    (comp : JWTResponse)
    (hn : env.navigatorGet resp options = Except.ok nav)
    (hc : env.authComplete nav = Except.ok comp) :
    authProceedFn env resp options opts appId =
      (Except.ok (toAuthResult comp true false),
       [Event.callNavigatorGet, Event.callAuthComplete nav,
        Event.writeJwtCookie (toAuthResult comp true false).token,
        Event.writeDeviceId appId comp.deviceId] ++
       (if opts.hasOnSuccess then
          [Event.onSuccessCalled (toAuthResult comp true false)] else [])) := by
  unfold authProceedFn
  simp only [hn]
  simp only [hc]

theorem txProceedFn_ok (env : Env) (a : AuthInit) (nav : NavGetResult)
    (r : TxComplete)
    (hn : env.navigatorGet a emptyOptions = Except.ok nav)
    (hc : env.txComplete (txCompleteBody a nav) = Except.ok r) :
    txProceedFn env a =
      (Except.ok r,
       [Event.callNavigatorGet, Event.callTxComplete (txCompleteBody a nav)]) := by
  unfold txProceedFn
  simp only [hn]
  simp only [hc]

/-- C1: authenticateWithPasskey dispatches on exactly the action values
proceed, crossAuth and fallback; for any other action value of the
authAuthInit response it throws NO_LOGIN_OPTIONS_ERROR, and its event log
is just the trust-store query and the authAuthInit call, so no browser
credential call and no authAuthComplete request is performed. -/
theorem authenticateWithPasskey_unknown_action (env : Env) (u : String)
    (o : PasskeysOptions)
    (h1 : (authInitResp env u o).action ≠ "proceed")
    (h2 : (authInitResp env u o).action ≠ "crossAuth")
    (h3 : (authInitResp env u o).action ≠ "fallback") :
    authenticateWithPasskey env u o =
      (Except.error NO_LOGIN_OPTIONS_ERROR,
       [Event.trustQuery (if o.autoFill then "" else u),
        Event.callAuthInit (authInitBody env u o)]) ∧
    Event.callNavigatorGet ∉ (authenticateWithPasskey env u o).2 ∧
    (∀ b, Event.callAuthComplete b ∉ (authenticateWithPasskey env u o).2) := by
  have hb := auth_default_branch env u o h1 h2 h3
  refine ⟨hb, ?_, ?_⟩
  · rw [hb]
    simp
  · intro b
    rw [hb]
    simp

/-- Witness for C1: a concrete environment whose auth-init action is the
unknown value "weird" makes authenticateWithPasskey throw
NO_LOGIN_OPTIONS_ERROR after only the trust query and the init call. -/
theorem authenticateWithPasskey_unknown_action_witness :
    authenticateWithPasskey envUnknown "alice" emptyOptions =
      (Except.error NO_LOGIN_OPTIONS_ERROR,
       [Event.trustQuery (if emptyOptions.autoFill then "" else "alice"),
        Event.callAuthInit (authInitBody envUnknown "alice" emptyOptions)]) :=
  (authenticateWithPasskey_unknown_action envUnknown "alice" emptyOptions
    (by decide) (by decide) (by decide)).1

/-- C2: on a crossAuth or fallback action, authenticateWithPasskey runs the
onFallback callback (when provided) with the merged fallback options and
returns the AuthResult with empty token and user id, success false and
fallback true; it makes no browser credential call and no authAuthComplete
request. -/
theorem authenticateWithPasskey_fallback_result (env : Env) (u : String)
    (o : PasskeysOptions)
    (h : (authInitResp env u o).action = "crossAuth" ∨
         (authInitResp env u o).action = "fallback") :
    authenticateWithPasskey env u o =
      (Except.ok { token := "", userId := "", success := false, isFallback := true },
       [Event.trustQuery (if o.autoFill then "" else u),
        Event.callAuthInit (authInitBody env u o)] ++
       (if (passkeyOptions u "" o).hasOnFallback then
          [Event.onFallbackCalled u (mergeFallbackOptions (authInitResp env u o))]
        else [])) ∧
    Event.callNavigatorGet ∉ (authenticateWithPasskey env u o).2 ∧
    (∀ b, Event.callAuthComplete b ∉ (authenticateWithPasskey env u o).2) := by
  have hb := auth_fallback_branch env u o h
  refine ⟨hb, ?_, ?_⟩
  · rw [hb]
    by_cases hfb : (passkeyOptions u "" o).hasOnFallback = true <;> simp [hfb]
  · intro b
    rw [hb]
    by_cases hfb : (passkeyOptions u "" o).hasOnFallback = true <;> simp [hfb]

/-- Witness for C2: a concrete crossAuth environment with an onFallback
callback returns the empty fallback result after running the callback with
the merged fallback options. -/
theorem authenticateWithPasskey_fallback_result_witness :
    authenticateWithPasskey envCross "alice"
        { emptyOptions with hasOnFallback := true } =
      (Except.ok { token := "", userId := "", success := false, isFallback := true },
       [Event.trustQuery
          (if ({ emptyOptions with hasOnFallback := true } : PasskeysOptions).autoFill
           then "" else "alice"),
        Event.callAuthInit
          (authInitBody envCross "alice" { emptyOptions with hasOnFallback := true })] ++
       (if (passkeyOptions "alice" "" { emptyOptions with hasOnFallback := true }).hasOnFallback
        then [Event.onFallbackCalled "alice"
          (mergeFallbackOptions
            (authInitResp envCross "alice" { emptyOptions with hasOnFallback := true }))]
        else [])) :=
  (authenticateWithPasskey_fallback_result envCross "alice"
    { emptyOptions with hasOnFallback := true } (by decide)).1

/-- C3: invokePasskeyApi returns the wrapped computation's outcome
unchanged on success; on a throw it rethrows the very same value, appending
exactly one client-events report when the thrown value is an Error
instance; the wrapped computation's own events pass through once and
unchanged, so the wrapped flow runs at most once per call. -/
theorem invokePasskeyApi_wraps_once {α : Type} (session : String) :
    (∀ fn : Except Thrown α × List Event,
        (invokePasskeyApi session fn).1 = fn.1) ∧
    (∀ (v : α) (evs : List Event),
        invokePasskeyApi session (Except.ok v, evs) = (Except.ok v, evs)) ∧
    (∀ (e : Thrown) (evs : List Event),
        invokePasskeyApi (α := α) session (Except.error e, evs) =
          (Except.error e,
           evs ++ if e.isErrorInstance then [Event.reportError session e] else [])) ∧
    (∀ (fn : Except Thrown α × List Event) (x : Event),
        x ∈ (invokePasskeyApi session fn).2 →
        x ∈ fn.2 ∨ ∃ e, x = Event.reportError session e) :=
  ⟨fun fn => invokePasskeyApi_fst session fn,
   fun v evs => invokePasskeyApi_ok session v evs,
   fun e evs => invokePasskeyApi_error session e evs,
   fun _ _ h => mem_invokePasskeyApi h⟩

/-- Witness for C3: on a concrete throwing computation the wrapper's log is
only the report event added to the (empty) log of the computation. -/
theorem invokePasskeyApi_wraps_once_witness :
    (Event.reportError "s" { message := "boom", isErrorInstance := true } ∈
        ((Except.error { message := "boom", isErrorInstance := true } :
            Except Thrown AuthResult), ([] : List Event)).2 ∨
     ∃ e, Event.reportError "s" { message := "boom", isErrorInstance := true } =
        Event.reportError "s" e) :=
  (invokePasskeyApi_wraps_once (α := AuthResult) "s").2.2.2
    (Except.error { message := "boom", isErrorInstance := true }, [])
    (Event.reportError "s" { message := "boom", isErrorInstance := true })
    (by decide)

/-- C5: on the proceed action with a successful browser assertion and a
successful authAuthComplete call, the run is exactly: trust query, one
authAuthInit call built from options and defaults, one browser credential
call, one authAuthComplete call, then the JWT cookie and device-id writes,
then the optional onSuccess callback; the returned value is the mapped
AuthResult. -/
theorem authenticateWithPasskey_proceed_sequence (env : Env) (u : String)
    (o : PasskeysOptions) (nav : NavGetResult) (comp : JWTResponse)
    (ha : (authInitResp env u o).action = "proceed")
    (hn : env.navigatorGet (authInitResp env u o) o = Except.ok nav)
    (hc : env.authComplete nav = Except.ok comp) :
    authenticateWithPasskey env u o =
      (Except.ok (toAuthResult comp true false),
       [Event.trustQuery (if o.autoFill then "" else u),
        Event.callAuthInit (authInitBody env u o),
        Event.callNavigatorGet,
        Event.callAuthComplete nav,
        Event.writeJwtCookie (toAuthResult comp true false).token,
        Event.writeDeviceId env.appId comp.deviceId] ++
       (if (passkeyOptions u "" o).hasOnSuccess then
          [Event.onSuccessCalled (toAuthResult comp true false)] else [])) := by
  rw [auth_proceed_branch env u o ha,
    authProceedFn_ok env (authInitResp env u o) o (passkeyOptions u "" o)
      env.appId nav comp hn hc, invokePasskeyApi_ok]
  simp

/-- Witness for C5: the concrete proceed environment yields exactly the
documented call sequence and the mapped result. -/
theorem authenticateWithPasskey_proceed_sequence_witness :
    authenticateWithPasskey baseEnv "alice" emptyOptions =
      (Except.ok (toAuthResult
          { userId := "u2", jwtAccess := "jwtA", deviceId := "devA" } true false),
       [Event.trustQuery (if emptyOptions.autoFill then "" else "alice"),
        Event.callAuthInit (authInitBody baseEnv "alice" emptyOptions),
        Event.callNavigatorGet,
        Event.callAuthComplete
          { assertionResult :=
              { authenticatorData := "ad", clientDataJSON := "cd"
                credentialId := "ci", signature := "sg" }, payload := "navg" },
        Event.writeJwtCookie (toAuthResult
          { userId := "u2", jwtAccess := "jwtA", deviceId := "devA" } true false).token,
        Event.writeDeviceId baseEnv.appId "devA"] ++
       (if (passkeyOptions "alice" "" emptyOptions).hasOnSuccess then
          [Event.onSuccessCalled (toAuthResult
            { userId := "u2", jwtAccess := "jwtA", deviceId := "devA" } true false)]
        else [])) :=
  authenticateWithPasskey_proceed_sequence baseEnv "alice" emptyOptions
    { assertionResult :=
        { authenticatorData := "ad", clientDataJSON := "cd"
          credentialId := "ci", signature := "sg" }, payload := "navg" }
    { userId := "u2", jwtAccess := "jwtA", deviceId := "devA" }
    (by decide) rfl rfl

theorem filter_requestOtp (env : Env) (u : String) (o : PasskeysOptions) :
    ((requestOtp env u o).2.filter isPersistentWrite) = [] ∨
    ∃ t a d, ((requestOtp env u o).2.filter isPersistentWrite) =
      [Event.writeJwtCookie t, Event.writeDeviceId a d] := by
  unfold requestOtp
  by_cases h : env.getToken o.authzToken = ""
  · rw [if_pos h]
    have hf := filter_authenticateWithPasskey env u o
    rcases hm : authenticateWithPasskey env u o with ⟨r, evs⟩
    rw [hm] at hf
    simp only at hf
    cases r with
    | error e => simpa using hf
    | ok v =>
        rcases hf with hf | ⟨t, a, d, hf⟩
        · left
          simp [List.filter_append, isPersistentWrite, hf]
        · right
          refine ⟨t, a, d, ?_⟩
          simp [List.filter_append, isPersistentWrite, hf]
  · rw [if_neg h]
    left
    simp [isPersistentWrite]

/-- C4: a successful createPasskey or authenticateWithPasskey run writes to
persistent client-side state at most the JWT session cookie and the device
id (exactly that pair, or nothing at all on the fallback outcome); and no
operation of the class (requestOtp, confirmTransaction included) ever
writes any other persistent value. -/
theorem persistent_writes_only (env : Env) (u tz au p : String)
    (o ao po co : PasskeysOptions)
    (hcs : ∃ r, (createPasskey env u tz o).1 = Except.ok r)
    (has : ∃ r, (authenticateWithPasskey env au ao).1 = Except.ok r) :
    (((createPasskey env u tz o).2.filter isPersistentWrite) = [] ∨
     ∃ t a d, ((createPasskey env u tz o).2.filter isPersistentWrite) =
       [Event.writeJwtCookie t, Event.writeDeviceId a d]) ∧
    (((authenticateWithPasskey env au ao).2.filter isPersistentWrite) = [] ∨
     ∃ t a d, ((authenticateWithPasskey env au ao).2.filter isPersistentWrite) =
       [Event.writeJwtCookie t, Event.writeDeviceId a d]) ∧
    (((requestOtp env au po).2.filter isPersistentWrite) = [] ∨
     ∃ t a d, ((requestOtp env au po).2.filter isPersistentWrite) =
       [Event.writeJwtCookie t, Event.writeDeviceId a d]) ∧
    ((confirmTransaction env u p co).2.filter isPersistentWrite) = [] :=
  ⟨filter_createPasskey env u tz o,
   filter_authenticateWithPasskey env au ao,
   filter_requestOtp env au po,
   filter_confirmTransaction env u p co⟩

/-- Witness for C4: on the concrete successful environment both flows write
exactly the JWT cookie and the device id and nothing else. -/
theorem persistent_writes_only_witness :
    (((createPasskey baseEnv "alice" "tokA" emptyOptions).2.filter
        isPersistentWrite) = [] ∨
     ∃ t a d, ((createPasskey baseEnv "alice" "tokA" emptyOptions).2.filter
        isPersistentWrite) = [Event.writeJwtCookie t, Event.writeDeviceId a d]) ∧
    (((authenticateWithPasskey baseEnv "alice" emptyOptions).2.filter
        isPersistentWrite) = [] ∨
     ∃ t a d, ((authenticateWithPasskey baseEnv "alice" emptyOptions).2.filter
        isPersistentWrite) = [Event.writeJwtCookie t, Event.writeDeviceId a d]) ∧
    (((requestOtp baseEnv "alice" emptyOptions).2.filter
        isPersistentWrite) = [] ∨
     ∃ t a d, ((requestOtp baseEnv "alice" emptyOptions).2.filter
        isPersistentWrite) = [Event.writeJwtCookie t, Event.writeDeviceId a d]) ∧
    ((confirmTransaction baseEnv "alice" "pay" emptyOptions).2.filter
        isPersistentWrite) = [] :=
  persistent_writes_only baseEnv "alice" "tokA" "alice" "pay"
    emptyOptions emptyOptions emptyOptions emptyOptions
    ⟨{ token := "jwtR", userId := "u1", success := true, isFallback := false }, rfl⟩
    ⟨{ token := "jwtA", userId := "u2", success := true, isFallback := false }, rfl⟩

/-- C6: requestOtp uses the session-store token as the authAuthCodeRequest
authorization when one is present (performing no passkey authentication);
otherwise it first runs authenticateWithPasskey and uses the token of its
result, propagating its failure; the OTP response is returned unchanged. -/
theorem requestOtp_token_or_auth (env : Env) (u : String)
    (o : PasskeysOptions) :
    (env.getToken o.authzToken ≠ "" →
      requestOtp env u o =
        (Except.ok (env.authCodeRequest (env.getToken o.authzToken)),
         [Event.callAuthCodeRequest (env.getToken o.authzToken)])) ∧
    (∀ r evs, env.getToken o.authzToken = "" →
      authenticateWithPasskey env u o = (Except.ok r, evs) →
      requestOtp env u o =
        (Except.ok (env.authCodeRequest r.token),
         evs ++ [Event.callAuthCodeRequest r.token])) ∧
    (∀ e evs, env.getToken o.authzToken = "" →
      authenticateWithPasskey env u o = (Except.error e, evs) →
      requestOtp env u o = (Except.error e, evs)) := by
  refine ⟨?_, ?_, ?_⟩
  · intro h
    unfold requestOtp
    rw [if_neg h]
  · intro r evs h0 hA
    unfold requestOtp
    rw [if_pos h0, hA]
  · intro e evs h0 hA
    unfold requestOtp
    rw [if_pos h0, hA]

/-- Witness for C6: with a stored token the OTP is requested directly under
that token, and the response is returned unchanged. -/
theorem requestOtp_token_or_auth_witness :
    requestOtp baseEnv "alice" { emptyOptions with authzToken := "tk" } =
      (Except.ok (baseEnv.authCodeRequest
        (baseEnv.getToken
          ({ emptyOptions with authzToken := "tk" } : PasskeysOptions).authzToken)),
       [Event.callAuthCodeRequest
        (baseEnv.getToken
          ({ emptyOptions with authzToken := "tk" } : PasskeysOptions).authzToken)]) :=
  (requestOtp_token_or_auth baseEnv "alice"
    { emptyOptions with authzToken := "tk" }).1 (by decide)

/-- C7: the authorization header is attached to the regRegInit request
exactly when the session store yields a non-empty token whose parsed JWT
username equals the username argument; on a parsed-username mismatch the
token is cleared and regRegInit is called without authorization. -/
theorem createPasskey_authz_header (env : Env) (u tz : String)
    (o : PasskeysOptions) :
    ∃ rest, (createPasskey env u tz o).2 =
      Event.trustQuery u ::
      Event.callRegInit (regInitBody env u tz o)
        (if env.getToken (passkeyOptions u tz o).authzToken ≠ "" ∧
            env.parseJwtUsername
              (env.getToken (passkeyOptions u tz o).authzToken) = u
         then some (env.getToken (passkeyOptions u tz o).authzToken)
         else none) ::
      rest := by
  refine ⟨(invokePasskeyApi (regInitResp env u tz o).session
    (createRegFn env o (regInitResp env u tz o) env.appId
      env.storedDeviceId)).2, ?_⟩
  simp only [createPasskey]
  rw [← regInitAuthHeader_eq]

/-- C8: the session string received from the init response is never parsed
or modified: the transaction flow forwards it unchanged in the txTxComplete
request body, and every flow hands exactly it to the error reporter on
failure. -/
theorem session_forwarded_unchanged (env : Env) (u tz p au : String)
    (o co ao : PasskeysOptions) :
    (∀ b, Event.callTxComplete b ∈ (confirmTransaction env u p co).2 →
       b.session = (env.txInit (txInitBody env u p co)).session) ∧
    (∀ s e, Event.reportError s e ∈ (confirmTransaction env u p co).2 →
       s = (env.txInit (txInitBody env u p co)).session) ∧
    (∀ s e, Event.reportError s e ∈ (authenticateWithPasskey env au ao).2 →
       s = (authInitResp env au ao).session) ∧
    (∀ s e, Event.reportError s e ∈ (createPasskey env u tz o).2 →
       s = (regInitResp env u tz o).session) := by
  refine ⟨?_, ?_, ?_, ?_⟩
  · intro b hb
    rcases mem_confirmTransaction hb with h | h | ⟨b2, hb2, hs⟩ | ⟨e, he⟩
    · simp at h
    · simp at h
    · rw [Event.callTxComplete.injEq] at hb2
      rw [hb2, hs]
    · simp at he
  · intro s e hm
    rcases mem_confirmTransaction hm with h | h | ⟨b2, hb2, hs⟩ | ⟨e2, he⟩
    · simp at h
    · simp at h
    · simp at hb2
    · rw [Event.reportError.injEq] at he
      exact he.1
  · intro s e hm
    rcases mem_authenticateWithPasskey hm with
      h | h | h | ⟨b, hb⟩ | ⟨t, ht⟩ | ⟨a, d, hd⟩ | ⟨r, hr⟩ | ⟨e2, he⟩ | ⟨fo, hf⟩
    · simp at h
    · simp at h
    · simp at h
    · simp at hb
    · simp at ht
    · simp at hd
    · simp at hr
    · rw [Event.reportError.injEq] at he
      exact he.1
    · simp at hf
  · intro s e hm
    rcases mem_createPasskey hm with
      h | h | h | ⟨b, hb⟩ | ⟨t, ht⟩ | ⟨a, d, hd⟩ | ⟨e2, he⟩
    · simp at h
    · simp at h
    · simp at h
    · simp at hb
    · simp at ht
    · simp at hd
    · rw [Event.reportError.injEq] at he
      exact he.1

/-- Witness for C8: on a concrete environment whose txTxComplete throws an
Error, the txTxComplete request carried the unchanged init session and the
error reporter received exactly that session. -/
theorem session_forwarded_unchanged_witness :
    ({ authenticatorData := "ad", clientData := "cd", keyHandle := "ci"
       session := "txsess", signature := "sg" } : TxCompleteRequestBody).session =
      (envTxFail.txInit
        (txInitBody envTxFail "alice" "pay" emptyOptions)).session ∧
    "txsess" = (envTxFail.txInit
        (txInitBody envTxFail "alice" "pay" emptyOptions)).session :=
  ⟨(session_forwarded_unchanged envTxFail "alice" "tok" "pay" "alice"
      emptyOptions emptyOptions emptyOptions).1
      { authenticatorData := "ad", clientData := "cd", keyHandle := "ci"
        session := "txsess", signature := "sg" } (by decide),
   (session_forwarded_unchanged envTxFail "alice" "tok" "pay" "alice"
      emptyOptions emptyOptions emptyOptions).2.1 "txsess"
      { message := "boom", isErrorInstance := true } (by decide)⟩

/-- C9: confirmTransaction builds an AuthInit with action proceed and empty
crossAuthMethods and fallbackMethods, never runs a fallback callback,
writes nothing to persistent client-side state, and on success returns the
txTxComplete response unchanged. -/
theorem confirmTransaction_no_fallback_no_writes (env : Env) (u p : String)
    (o : PasskeysOptions) :
    (txAuthInit env u p o).action = "proceed" ∧
    (txAuthInit env u p o).crossAuthMethods = [] ∧
    (txAuthInit env u p o).fallbackMethods = [] ∧
    ((confirmTransaction env u p o).2.filter isPersistentWrite) = [] ∧
    (∀ un fo, Event.onFallbackCalled un fo ∉ (confirmTransaction env u p o).2) ∧
    (∀ nav r, env.navigatorGet (txAuthInit env u p o) emptyOptions = Except.ok nav →
       env.txComplete (txCompleteBody (txAuthInit env u p o) nav) = Except.ok r →
       (confirmTransaction env u p o).1 = Except.ok r) := by
  refine ⟨rfl, rfl, rfl, filter_confirmTransaction env u p o, ?_, ?_⟩
  · intro un fo hm
    rcases mem_confirmTransaction hm with h | h | ⟨b2, hb2, hs⟩ | ⟨e2, he⟩
    · simp at h
    · simp at h
    · simp at hb2
    · simp at he
  · intro nav r hn hc
    simp only [confirmTransaction]
    rw [txProceedFn_ok env (txAuthInit env u p o) nav r hn hc,
      invokePasskeyApi_ok]

/-- Witness for C9: the concrete environment returns the txTxComplete
response unchanged. -/
theorem confirmTransaction_no_fallback_no_writes_witness :
    (confirmTransaction baseEnv "alice" "pay" emptyOptions).1 =
      Except.ok { nonce := "n1", txToken := "txjwt" } :=
  (confirmTransaction_no_fallback_no_writes baseEnv "alice" "pay"
    emptyOptions).2.2.2.2.2
    { assertionResult :=
        { authenticatorData := "ad", clientDataJSON := "cd"
          credentialId := "ci", signature := "sg" }, payload := "navg" }
    { nonce := "n1", txToken := "txjwt" } rfl rfl

/-- C10: authenticateWithPasskeyAutofill is exactly authenticateWithPasskey
with the empty username and autoFill set; the username the authAuthInit
request carries is always empty, and the trust store is queried with the
empty username. -/
theorem autofill_delegates (env : Env) (o : PasskeysOptions) :
    authenticateWithPasskeyAutofill env o =
      authenticateWithPasskey env "" { o with autoFill := true } ∧
    (∀ b, Event.callAuthInit b ∈ (authenticateWithPasskeyAutofill env o).2 →
       b.username = "") ∧
    (∀ s, Event.trustQuery s ∈ (authenticateWithPasskeyAutofill env o).2 →
       s = "") := by
  refine ⟨rfl, ?_, ?_⟩
  · intro b hb
    have hb0 : Event.callAuthInit b ∈
        (authenticateWithPasskey env "" { o with autoFill := true }).2 := hb
    rcases mem_authenticateWithPasskey hb0 with
      h | h | h | ⟨b2, hb2⟩ | ⟨t, ht⟩ | ⟨a, d, hd⟩ | ⟨r, hr⟩ | ⟨e2, he⟩ | ⟨fo, hf⟩
    · simp at h
    · rw [Event.callAuthInit.injEq] at h
      rw [h]
      rfl
    · simp at h
    · simp at hb2
    · simp at ht
    · simp at hd
    · simp at hr
    · simp at he
    · simp at hf
  · intro s hs
    have hs0 : Event.trustQuery s ∈
        (authenticateWithPasskey env "" { o with autoFill := true }).2 := hs
    rcases mem_authenticateWithPasskey hs0 with
      h | h | h | ⟨b2, hb2⟩ | ⟨t, ht⟩ | ⟨a, d, hd⟩ | ⟨r, hr⟩ | ⟨e2, he⟩ | ⟨fo, hf⟩
    · rw [Event.trustQuery.injEq] at h
      rw [h]
      rfl
    · simp at h
    · simp at h
    · simp at hb2
    · simp at ht
    · simp at hd
    · simp at hr
    · simp at he
    · simp at hf

/-- Witness for C10: the autofill flow on a concrete environment sends the
empty username in the authAuthInit request. -/
theorem autofill_delegates_witness :
    (authInitBody baseEnv "" { emptyOptions with autoFill := true }).username
      = "" :=
  (autofill_delegates baseEnv emptyOptions).2.1
    (authInitBody baseEnv "" { emptyOptions with autoFill := true }) (by decide)

end LoginIDModel
